import Mathlib

/-!
Verification of the lox tree-walking interpreter driver (src/main.rs) and the
core pipeline it drives.  The repository ships only `main.rs`; the modules
`scanner`, `parser`, `interpreter`, `environment` and `token` it imports are
not present under src/, so their behaviour is modelled from the spec
(sections 3, 4 and 6), while every driver-level definition below is a direct
embedding of `main.rs`.  Printing is modelled by returning the printed lines;
the shared-mutable `Rc<RefCell<Environment>>` is modelled by explicit state
passing; recursion in the scanner, parser and evaluator is bounded by an
explicit fuel parameter (the driver theorems hold for every fuel).
-/

deriving instance DecidableEq for Except

namespace Lox

/-- Modelled from the spec (section 3, Token; `token` module is not in src/):
lexeme categories of the language, including keywords and end-of-input. -/
inductive TokenType where
  | leftParen | rightParen | leftBrace | rightBrace
  | comma | dot | minus | plus | semicolon | slash | star
  | bang | bangEqual | equal | equalEqual
  | greater | greaterEqual | less | lessEqual
  | identifier | stringTok | numberTok
  | kwAnd | kwClass | kwElse | kwFalse | kwFun | kwFor | kwIf | kwNil | kwOr
  | kwPrint | kwReturn | kwSuper | kwThis | kwTrue | kwVar | kwWhile
  | eofTok
deriving DecidableEq, Repr

/-- Modelled from the spec (section 3): a runtime value is a tagged variant
over number, string, boolean and nil.  Numbers are modelled as rationals. -/
inductive Value where
  | num (q : Rat)
  | str (s : String)
  | bool (b : Bool)
  | nil
deriving DecidableEq, Repr

/-- Modelled from the spec (section 3, Token): optional literal payload. -/
inductive Literal where
  | num (q : Rat)
  | str (s : String)
deriving DecidableEq, Repr

/-- Modelled from the spec (section 3, Token; `token` module is not in src/):
kind, lexeme, optional literal value, source line number, character offset. -/
structure Token where
  kind : TokenType
  lexeme : String
  literal : Option Literal
  line : Nat
  position : Nat
deriving DecidableEq, Repr

/-- Modelled from the spec (section 3, Environment; `environment` module is
not in src/): a mapping from names to values plus an optional parent. -/
inductive Environment where
  | mk (values : List (String × Value)) (parent : Option Environment)
deriving Repr

/-- `Environment::new(parent)` (spec section 4.3): fresh empty scope. -/
def Environment.new (parent : Option Environment) : Environment := .mk [] parent

/-- Modelled from the spec (section 4.3): `define` always inserts/overwrites
in the current scope regardless of shadowing.  Lookup is first-match, so
consing the new binding in front realises overwrite semantics. -/
def Environment.define : Environment → String → Value → Environment
  | .mk values p, name, v => .mk ((name, v) :: values) p

/-- Modelled from the spec (section 4.3): `get` searches the current scope
first, then each parent outward; an exhausted chain is an undefined-variable
error. -/
def Environment.get : Environment → String → Except String Value
  | .mk values p, name =>
    match values.lookup name with
    | some v => .ok v
    | none =>
      match p with
      | some parent => parent.get name
      | none => .error ("Undefined variable " ++ name)

/-- Modelled from the spec (section 4.3): `assign` must find an existing
binding somewhere in the chain; it never implicitly creates one. -/
def Environment.assign : Environment → String → Value → Except String Environment
  | .mk values p, name, v =>
    if (values.lookup name).isSome then .ok (.mk ((name, v) :: values) p)
    else
      match p with
      | some parent =>
        match parent.assign name v with
        | .ok parent2 => .ok (.mk values (some parent2))
        | .error e => .error e
      | none => .error ("Undefined variable " ++ name)

/-- ScanErrorType, as destructured by `run` in src/main.rs lines 123-133:
exactly the three variants BadChar, UnterminatedString, NumberParseError. -/
inductive ScanErrorType where
  | badChar (c : Char)
  | unterminatedString (s : String)
  | numberParseError (s : String) (cause : String)
deriving DecidableEq, Repr

/-- ScanError, as destructured by `run` in src/main.rs lines 118-122:
a cause plus the line and position of the failure. -/
structure ScanError where
  cause : ScanErrorType
  line : Nat
  position : Nat
deriving DecidableEq, Repr

/-- Modelled from the spec (section 4.1): digits of a numeric lexeme. -/
def digitsToNat : List Char → Option Nat
  | [] => none
  | cs => cs.foldl
      (fun acc c => match acc with
        | none => none
        | some n => if c.isDigit then some (n * 10 + (c.toNat - 48)) else none)
      (some 0)

/-- Split a lexeme at the dots, keeping empty groups. -/
def splitOnDot : List Char → List (List Char)
  | [] => [[]]
  | c :: rest =>
    if c = '.' then [] :: splitOnDot rest
    else
      match splitOnDot rest with
      | [] => [[c]]
      | g :: gs => (c :: g) :: gs

/-- Modelled from the spec (sections 4.1 and 8): a numeric lexeme is parsed
into a number; text with more than one dot (such as "12.34.56") or with a
missing digit part does not parse. -/
def parseNumber (s : String) : Option Rat :=
  match splitOnDot s.data with
  | [w] => (digitsToNat w).map (fun n => (n : Rat))
  | [w, f] =>
    match digitsToNat w, digitsToNat f with
    | some n, some d => some ((n : Rat) + (d : Rat) / ((10 : Rat) ^ f.length))
    | _, _ => none
  | _ => none

/-- Modelled from the spec (section 4.1): keyword recognition for
identifier-shaped lexemes. -/
def keywordKind (s : String) : Option TokenType :=
  if s = "and" then some .kwAnd
  else if s = "class" then some .kwClass
  else if s = "else" then some .kwElse
  else if s = "false" then some .kwFalse
  else if s = "fun" then some .kwFun
  else if s = "for" then some .kwFor
  else if s = "if" then some .kwIf
  else if s = "nil" then some .kwNil
  else if s = "or" then some .kwOr
  else if s = "print" then some .kwPrint
  else if s = "return" then some .kwReturn
  else if s = "super" then some .kwSuper
  else if s = "this" then some .kwThis
  else if s = "true" then some .kwTrue
  else if s = "var" then some .kwVar
  else if s = "while" then some .kwWhile
  else none

def isIdentStart (c : Char) : Bool := c.isAlpha || c = '_'

def isIdentChar (c : Char) : Bool := isIdentStart c || c.isDigit

/-- Make a token with no literal payload. -/
def tok (k : TokenType) (lex : String) (line pos : Nat) : Token :=
  ⟨k, lex, none, line, pos⟩

/-- Modelled from the spec (section 4.1; `scanner` module is not in src/):
single left-to-right pass maintaining line and position counters; fails
immediately at the first lexical error.  `fuel` bounds the recursion and the
entry point always supplies enough of it (one unit per character). -/
def scanLoop : Nat → List Char → Nat → Nat → List Token →
    Except ScanError (List Token)
  | 0, _, line, pos, acc => .ok (tok .eofTok "" line pos :: acc).reverse
  | _ + 1, [], line, pos, acc => .ok (tok .eofTok "" line pos :: acc).reverse
  | fuel + 1, c :: rest, line, pos, acc =>
    if c = '(' then scanLoop fuel rest line (pos + 1) (tok .leftParen "(" line pos :: acc)
    else if c = ')' then scanLoop fuel rest line (pos + 1) (tok .rightParen ")" line pos :: acc)
    else if c = '\x7b' then scanLoop fuel rest line (pos + 1) (tok .leftBrace "\x7b" line pos :: acc)
    else if c = '\x7d' then scanLoop fuel rest line (pos + 1) (tok .rightBrace "\x7d" line pos :: acc)
    else if c = ',' then scanLoop fuel rest line (pos + 1) (tok .comma "," line pos :: acc)
    else if c = '.' then scanLoop fuel rest line (pos + 1) (tok .dot "." line pos :: acc)
    else if c = '-' then scanLoop fuel rest line (pos + 1) (tok .minus "-" line pos :: acc)
    else if c = '+' then scanLoop fuel rest line (pos + 1) (tok .plus "+" line pos :: acc)
    else if c = ';' then scanLoop fuel rest line (pos + 1) (tok .semicolon ";" line pos :: acc)
    else if c = '*' then scanLoop fuel rest line (pos + 1) (tok .star "*" line pos :: acc)
    else if c = '!' then
      match rest with
      | '=' :: rest2 => scanLoop fuel rest2 line (pos + 2) (tok .bangEqual "!=" line pos :: acc)
      | _ => scanLoop fuel rest line (pos + 1) (tok .bang "!" line pos :: acc)
    else if c = '=' then
      match rest with
      | '=' :: rest2 => scanLoop fuel rest2 line (pos + 2) (tok .equalEqual "==" line pos :: acc)
      | _ => scanLoop fuel rest line (pos + 1) (tok .equal "=" line pos :: acc)
    else if c = '<' then
      match rest with
      | '=' :: rest2 => scanLoop fuel rest2 line (pos + 2) (tok .lessEqual "<=" line pos :: acc)
      | _ => scanLoop fuel rest line (pos + 1) (tok .less "<" line pos :: acc)
    else if c = '>' then
      match rest with
      | '=' :: rest2 => scanLoop fuel rest2 line (pos + 2) (tok .greaterEqual ">=" line pos :: acc)
      | _ => scanLoop fuel rest line (pos + 1) (tok .greater ">" line pos :: acc)
    else if c = '/' then
      match rest with
      | '/' :: rest2 =>
        let comment := rest2.takeWhile (fun ch => ch ≠ '\n')
        scanLoop fuel (rest2.drop comment.length) line (pos + 2 + comment.length) acc
      | _ => scanLoop fuel rest line (pos + 1) (tok .slash "/" line pos :: acc)
    else if c = ' ' ∨ c = '\t' ∨ c = '\r' then scanLoop fuel rest line (pos + 1) acc
    else if c = '\n' then scanLoop fuel rest (line + 1) (pos + 1) acc
    else if c = '"' then
      let content := rest.takeWhile (fun ch => ch ≠ '"')
      if content.length = rest.length then
        .error ⟨.unterminatedString (String.mk content), line, pos⟩
      else
        scanLoop fuel (rest.drop (content.length + 1))
          (line + (content.filter (fun ch => ch = '\n')).length)
          (pos + content.length + 2)
          (⟨.stringTok, String.mk ('"' :: content ++ ['"']),
            some (.str (String.mk content)), line, pos⟩ :: acc)
    else if c.isDigit then
      let lexeme := (c :: rest).takeWhile (fun ch => ch.isDigit || ch = '.')
      match parseNumber (String.mk lexeme) with
      | some q =>
        scanLoop fuel ((c :: rest).drop lexeme.length) line (pos + lexeme.length)
          (⟨.numberTok, String.mk lexeme, some (.num q), line, pos⟩ :: acc)
      | none => .error ⟨.numberParseError (String.mk lexeme) "invalid number literal", line, pos⟩
    else if isIdentStart c then
      let lexeme := (c :: rest).takeWhile isIdentChar
      let s := String.mk lexeme
      let kind := (keywordKind s).getD .identifier
      scanLoop fuel ((c :: rest).drop lexeme.length) line (pos + lexeme.length)
        (⟨kind, s, none, line, pos⟩ :: acc)
    else .error ⟨.badChar c, line, pos⟩

/-- Modelled from the spec (sections 4.1 and 6; `scanner` module is not in
src/): `scan(text) -> Result<TokenSeq, ScanError>`. -/
def scan_tokens (source : String) : Except ScanError (List Token) :=
  scanLoop (source.data.length + 1) source.data 1 0 []

/-- Modelled from the spec (section 3, Expression node; `parser` module is
not in src/): tagged variant over literal, grouping, unary, binary, variable
reference, assignment and logical.  Operator nodes carry the operator's
source line for runtime diagnostics. -/
inductive Expr where
  | lit (v : Value)
  | grouping (e : Expr)
  | unary (op : TokenType) (line : Nat) (e : Expr)
  | binary (l : Expr) (op : TokenType) (line : Nat) (r : Expr)
  | variableRef (name : String) (line : Nat)
  | assign (name : String) (line : Nat) (value : Expr)
  | logical (l : Expr) (op : TokenType) (line : Nat) (r : Expr)
deriving DecidableEq, Repr

/-- Modelled from the spec (section 3, Statement node; `parser` module is not
in src/): tagged variant over expression-statement, print, variable
declaration, block, conditional and loop. -/
inductive Stmt where
  | expression (e : Expr)
  | print (e : Expr)
  | varDecl (name : String) (line : Nat) (init : Option Expr)
  | block (stmts : List Stmt)
  | ifS (cond : Expr) (thenB : Stmt) (elseB : Option Stmt)
  | whileS (cond : Expr) (body : Stmt)

/-- ParseError, as destructured by `run` in src/main.rs line 105: an optional
offending token (none when the error occurs at end-of-input, spec section
4.2) and a message. -/
structure ParseError where
  token : Option Token
  message : String
deriving DecidableEq, Repr

/-- Build a parse error at the head of the remaining tokens: none at
end-of-input (spec section 4.2), otherwise the offending token. -/
def errorAt (ts : List Token) (msg : String) : ParseError :=
  match ts with
  | [] => ⟨none, msg⟩
  | t :: _ => if t.kind = .eofTok then ⟨none, msg⟩ else ⟨some t, msg⟩

/-- Consume one token of the expected kind or fail. -/
def consume (ts : List Token) (k : TokenType) (msg : String) :
    Except ParseError (Token × List Token) :=
  match ts with
  | t :: rest => if t.kind = k then .ok (t, rest) else .error (errorAt ts msg)
  | [] => .error (errorAt ts msg)

/-- Fuel exhaustion marker for the recursive-descent functions; the entry
point always supplies enough fuel for the token sequence at hand. -/
def fuelError : ParseError := ⟨none, "parser fuel exhausted"⟩

mutual

/-- Modelled from the spec (section 4.2): declaration → varDecl | statement. -/
def parseDecl : Nat → List Token → Except ParseError (Stmt × List Token)
  | 0, _ => .error fuelError
  | fuel + 1, ts =>
    match ts with
    | t :: rest =>
      if t.kind = .kwVar then
        match rest with
        | n :: rest2 =>
          if n.kind = .identifier then
            match rest2 with
            | e :: rest3 =>
              if e.kind = .equal then
                match parseExpression fuel rest3 with
                | .ok (init, rest4) =>
                  match consume rest4 .semicolon "Expected ; after variable declaration" with
                  | .ok (_, rest5) => .ok (.varDecl n.lexeme n.line (some init), rest5)
                  | .error er => .error er
                | .error er => .error er
              else
                match consume rest2 .semicolon "Expected ; after variable declaration" with
                | .ok (_, rest3) => .ok (.varDecl n.lexeme n.line none, rest3)
                | .error er => .error er
            | [] => .error (errorAt rest2 "Expected ; after variable declaration")
          else .error (errorAt rest "Expected variable name")
        | [] => .error (errorAt rest "Expected variable name")
      else parseStatement fuel ts
    | [] => .error (errorAt ts "Expected declaration")

/-- Modelled from the spec (section 4.2): statement → print | block | if |
while | expression-statement. -/
def parseStatement : Nat → List Token → Except ParseError (Stmt × List Token)
  | 0, _ => .error fuelError
  | fuel + 1, ts =>
    match ts with
    | t :: rest =>
      if t.kind = .kwPrint then
        match parseExpression fuel rest with
        | .ok (e, rest2) =>
          match consume rest2 .semicolon "Expected ; after value" with
          | .ok (_, rest3) => .ok (.print e, rest3)
          | .error er => .error er
        | .error er => .error er
      else if t.kind = .leftBrace then
        match parseBlockItems fuel rest [] with
        | .ok (ss, rest2) => .ok (.block ss, rest2)
        | .error er => .error er
      else if t.kind = .kwIf then
        match consume rest .leftParen "Expected ( after if" with
        | .ok (_, rest2) =>
          match parseExpression fuel rest2 with
          | .ok (cond, rest3) =>
            match consume rest3 .rightParen "Expected ) after if condition" with
            | .ok (_, rest4) =>
              match parseStatement fuel rest4 with
              | .ok (thenB, rest5) =>
                match rest5 with
                | e :: rest6 =>
                  if e.kind = .kwElse then
                    match parseStatement fuel rest6 with
                    | .ok (elseB, rest7) => .ok (.ifS cond thenB (some elseB), rest7)
                    | .error er => .error er
                  else .ok (.ifS cond thenB none, rest5)
                | [] => .ok (.ifS cond thenB none, rest5)
              | .error er => .error er
            | .error er => .error er
          | .error er => .error er
        | .error er => .error er
      else if t.kind = .kwWhile then
        match consume rest .leftParen "Expected ( after while" with
        | .ok (_, rest2) =>
          match parseExpression fuel rest2 with
          | .ok (cond, rest3) =>
            match consume rest3 .rightParen "Expected ) after while condition" with
            | .ok (_, rest4) =>
              match parseStatement fuel rest4 with
              | .ok (body, rest5) => .ok (.whileS cond body, rest5)
              | .error er => .error er
            | .error er => .error er
          | .error er => .error er
        | .error er => .error er
      else
        match parseExpression fuel ts with
        | .ok (e, rest2) =>
          match consume rest2 .semicolon "Expected ; after expression" with
          | .ok (_, rest3) => .ok (.expression e, rest3)
          | .error er => .error er
        | .error er => .error er
    | [] => .error (errorAt ts "Expected statement")

/-- Modelled from the spec (section 4.2): the items of a block, up to the
closing brace. -/
def parseBlockItems : Nat → List Token → List Stmt →
    Except ParseError (List Stmt × List Token)
  | 0, _, _ => .error fuelError
  | fuel + 1, ts, acc =>
    match ts with
    | t :: rest =>
      if t.kind = .rightBrace then .ok (acc.reverse, rest)
      else if t.kind = .eofTok then .error (errorAt ts "Expected end of block")
      else
        match parseDecl fuel ts with
        | .ok (s, rest2) => parseBlockItems fuel rest2 (s :: acc)
        | .error er => .error er
    | [] => .error (errorAt ts "Expected end of block")

/-- Modelled from the spec (section 4.2): expression → assignment. -/
def parseExpression : Nat → List Token → Except ParseError (Expr × List Token)
  | 0, _ => .error fuelError
  | fuel + 1, ts => parseAssign fuel ts

/-- Modelled from the spec (section 4.2): assignment, right-associative,
requiring a variable reference as target. -/
def parseAssign : Nat → List Token → Except ParseError (Expr × List Token)
  | 0, _ => .error fuelError
  | fuel + 1, ts =>
    match parseOr fuel ts with
    | .ok (l, rest) =>
      match rest with
      | t :: rest2 =>
        if t.kind = .equal then
          match l with
          | .variableRef name line =>
            match parseAssign fuel rest2 with
            | .ok (v, rest3) => .ok (.assign name line v, rest3)
            | .error er => .error er
          | _ => .error (errorAt rest "Invalid assignment target")
        else .ok (l, rest)
      | [] => .ok (l, rest)
    | .error er => .error er

/-- Modelled from the spec (section 4.2): logic-or. -/
def parseOr : Nat → List Token → Except ParseError (Expr × List Token)
  | 0, _ => .error fuelError
  | fuel + 1, ts =>
    match parseAnd fuel ts with
    | .ok (l, rest) => parseOrLoop fuel l rest
    | .error er => .error er

def parseOrLoop : Nat → Expr → List Token → Except ParseError (Expr × List Token)
  | 0, _, _ => .error fuelError
  | fuel + 1, l, ts =>
    match ts with
    | t :: rest =>
      if t.kind = .kwOr then
        match parseAnd fuel rest with
        | .ok (r, rest2) => parseOrLoop fuel (.logical l .kwOr t.line r) rest2
        | .error er => .error er
      else .ok (l, ts)
    | [] => .ok (l, ts)

/-- Modelled from the spec (section 4.2): logic-and. -/
def parseAnd : Nat → List Token → Except ParseError (Expr × List Token)
  | 0, _ => .error fuelError
  | fuel + 1, ts =>
    match parseEquality fuel ts with
    | .ok (l, rest) => parseAndLoop fuel l rest
    | .error er => .error er

def parseAndLoop : Nat → Expr → List Token → Except ParseError (Expr × List Token)
  | 0, _, _ => .error fuelError
  | fuel + 1, l, ts =>
    match ts with
    | t :: rest =>
      if t.kind = .kwAnd then
        match parseEquality fuel rest with
        | .ok (r, rest2) => parseAndLoop fuel (.logical l .kwAnd t.line r) rest2
        | .error er => .error er
      else .ok (l, ts)
    | [] => .ok (l, ts)

/-- Modelled from the spec (section 4.2): equality. -/
def parseEquality : Nat → List Token → Except ParseError (Expr × List Token)
  | 0, _ => .error fuelError
  | fuel + 1, ts =>
    match parseComparison fuel ts with
    | .ok (l, rest) => parseEqualityLoop fuel l rest
    | .error er => .error er

def parseEqualityLoop : Nat → Expr → List Token → Except ParseError (Expr × List Token)
  | 0, _, _ => .error fuelError
  | fuel + 1, l, ts =>
    match ts with
    | t :: rest =>
      if t.kind = .equalEqual ∨ t.kind = .bangEqual then
        match parseComparison fuel rest with
        | .ok (r, rest2) => parseEqualityLoop fuel (.binary l t.kind t.line r) rest2
        | .error er => .error er
      else .ok (l, ts)
    | [] => .ok (l, ts)

/-- Modelled from the spec (section 4.2): comparison. -/
def parseComparison : Nat → List Token → Except ParseError (Expr × List Token)
  | 0, _ => .error fuelError
  | fuel + 1, ts =>
    match parseTerm fuel ts with
    | .ok (l, rest) => parseComparisonLoop fuel l rest
    | .error er => .error er

def parseComparisonLoop : Nat → Expr → List Token → Except ParseError (Expr × List Token)
  | 0, _, _ => .error fuelError
  | fuel + 1, l, ts =>
    match ts with
    | t :: rest =>
      if t.kind = .greater ∨ t.kind = .greaterEqual ∨ t.kind = .less ∨ t.kind = .lessEqual then
        match parseTerm fuel rest with
        | .ok (r, rest2) => parseComparisonLoop fuel (.binary l t.kind t.line r) rest2
        | .error er => .error er
      else .ok (l, ts)
    | [] => .ok (l, ts)

/-- Modelled from the spec (section 4.2): term. -/
def parseTerm : Nat → List Token → Except ParseError (Expr × List Token)
  | 0, _ => .error fuelError
  | fuel + 1, ts =>
    match parseFactor fuel ts with
    | .ok (l, rest) => parseTermLoop fuel l rest
    | .error er => .error er

def parseTermLoop : Nat → Expr → List Token → Except ParseError (Expr × List Token)
  | 0, _, _ => .error fuelError
  | fuel + 1, l, ts =>
    match ts with
    | t :: rest =>
      if t.kind = .plus ∨ t.kind = .minus then
        match parseFactor fuel rest with
        | .ok (r, rest2) => parseTermLoop fuel (.binary l t.kind t.line r) rest2
        | .error er => .error er
      else .ok (l, ts)
    | [] => .ok (l, ts)

/-- Modelled from the spec (section 4.2): factor. -/
def parseFactor : Nat → List Token → Except ParseError (Expr × List Token)
  | 0, _ => .error fuelError
  | fuel + 1, ts =>
    match parseUnary fuel ts with
    | .ok (l, rest) => parseFactorLoop fuel l rest
    | .error er => .error er

def parseFactorLoop : Nat → Expr → List Token → Except ParseError (Expr × List Token)
  | 0, _, _ => .error fuelError
  | fuel + 1, l, ts =>
    match ts with
    | t :: rest =>
      if t.kind = .star ∨ t.kind = .slash then
        match parseUnary fuel rest with
        | .ok (r, rest2) => parseFactorLoop fuel (.binary l t.kind t.line r) rest2
        | .error er => .error er
      else .ok (l, ts)
    | [] => .ok (l, ts)

/-- Modelled from the spec (section 4.2): unary → (! | -) unary | primary. -/
def parseUnary : Nat → List Token → Except ParseError (Expr × List Token)
  | 0, _ => .error fuelError
  | fuel + 1, ts =>
    match ts with
    | t :: rest =>
      if t.kind = .bang ∨ t.kind = .minus then
        match parseUnary fuel rest with
        | .ok (e, rest2) => .ok (.unary t.kind t.line e, rest2)
        | .error er => .error er
      else parsePrimary fuel ts
    | [] => .error (errorAt ts "Expected expression")

/-- Modelled from the spec (section 4.2): primary → literal | identifier |
grouping. -/
def parsePrimary : Nat → List Token → Except ParseError (Expr × List Token)
  | 0, _ => .error fuelError
  | fuel + 1, ts =>
    match ts with
    | t :: rest =>
      if t.kind = .numberTok then
        match t.literal with
        | some (.num q) => .ok (.lit (.num q), rest)
        | _ => .error (errorAt ts "Malformed number token")
      else if t.kind = .stringTok then
        match t.literal with
        | some (.str s) => .ok (.lit (.str s), rest)
        | _ => .error (errorAt ts "Malformed string token")
      else if t.kind = .kwTrue then .ok (.lit (.bool true), rest)
      else if t.kind = .kwFalse then .ok (.lit (.bool false), rest)
      else if t.kind = .kwNil then .ok (.lit .nil, rest)
      else if t.kind = .identifier then .ok (.variableRef t.lexeme t.line, rest)
      else if t.kind = .leftParen then
        match parseExpression fuel rest with
        | .ok (e, rest2) =>
          match consume rest2 .rightParen "Expected ) after expression" with
          | .ok (_, rest3) => .ok (.grouping e, rest3)
          | .error er => .error er
        | .error er => .error er
      else .error (errorAt ts "Expected expression")
    | [] => .error (errorAt ts "Expected expression")

end

/-- Modelled from the spec (section 4.2 and glossary): after a syntax error,
discard tokens until a statement boundary — first advancing past the
offending token, then stopping after a semicolon or before a keyword that
can begin a statement. -/
def syncAux : List Token → List Token
  | [] => []
  | t :: rest =>
    if t.kind = .eofTok then t :: rest
    else if t.kind = .semicolon then rest
    else if t.kind = .kwClass ∨ t.kind = .kwFun ∨ t.kind = .kwVar ∨ t.kind = .kwFor ∨
        t.kind = .kwIf ∨ t.kind = .kwWhile ∨ t.kind = .kwPrint ∨ t.kind = .kwReturn then
      t :: rest
    else syncAux rest

/-- Synchronisation always discards at least one token, guaranteeing
progress of the error-recovery loop. -/
def synchronize : List Token → List Token
  | [] => []
  | _ :: rest => syncAux rest

/-- Modelled from the spec (section 4.2): the program loop — parse
declarations until end-of-input, recording each error and synchronising to
the next statement boundary, so one pass can surface many ParseErrors. -/
def parseProgram : Nat → List Token → List Stmt → List ParseError →
    Except (List ParseError) (List Stmt)
  | 0, _, acc, errs =>
    if (fuelError :: errs) = [] then .ok acc.reverse else .error (fuelError :: errs).reverse
  | fuel + 1, ts, acc, errs =>
    match ts with
    | [] => if errs = [] then .ok acc.reverse else .error errs.reverse
    | t :: _ =>
      if t.kind = .eofTok then
        if errs = [] then .ok acc.reverse else .error errs.reverse
      else
        match parseDecl fuel ts with
        | .ok (s, rest) => parseProgram fuel rest (s :: acc) errs
        | .error er => parseProgram fuel (synchronize ts) acc (er :: errs)

/-- Modelled from the spec (sections 4.2 and 6; `parser` module is not in
src/): `parse(tokens) -> Result<StmtSeq, ParseErrorSeq>`, returning Ok only
if zero errors were recorded, otherwise the full ordered error sequence. -/
def parse (fuel : Nat) (ts : List Token) : Except (List ParseError) (List Stmt) :=
  parseProgram fuel ts [] []

/-- RuntimeError, as destructured by `run` in src/main.rs lines 93-97: the
offending expression (rendered), its line, and a message. -/
structure RuntimeError where
  expr : String
  line : Nat
  message : String
deriving DecidableEq, Repr

/-- Modelled from the spec (section 4.4 and glossary; `interpreter` module is
not in src/): the truthiness rule — nil/unit and boolean-false are falsey;
everything else is truthy. -/
def is_truthy : Value → Bool
  | .nil => false
  | .bool b => b
  | _ => true

/-- Modelled from the spec (section 4.4): rendering of a value for print
output and string concatenation. -/
def stringify : Value → String
  | .nil => "nil"
  | .bool true => "true"
  | .bool false => "false"
  | .num q => if q.den = 1 then toString q.num else toString q
  | .str s => s

/-- Source text of an operator, for rendering offending expressions. -/
def opLexeme : TokenType → String
  | .plus => "+"
  | .minus => "-"
  | .star => "*"
  | .slash => "/"
  | .bang => "!"
  | .bangEqual => "!="
  | .equalEqual => "=="
  | .greater => ">"
  | .greaterEqual => ">="
  | .less => "<"
  | .lessEqual => "<="
  | .kwAnd => "and"
  | .kwOr => "or"
  | _ => "?"

/-- Modelled from the spec (section 3, Errors): rendering of the offending
expression carried by a RuntimeError. -/
def exprToString : Expr → String
  | .lit v => stringify v
  | .grouping e => "(" ++ exprToString e ++ ")"
  | .unary op _ e => opLexeme op ++ exprToString e
  | .binary l op _ r => exprToString l ++ " " ++ opLexeme op ++ " " ++ exprToString r
  | .variableRef n _ => n
  | .assign n _ v => n ++ " = " ++ exprToString v
  | .logical l op _ r => exprToString l ++ " " ++ opLexeme op ++ " " ++ exprToString r

/-- Modelled from the spec (section 4.4; `interpreter` module is not in
src/): expression evaluation against the current environment, threading the
environment explicitly (assignment mutates it).  Arithmetic requires numeric
operands except `+`, which concatenates when either operand is a string;
equality across mismatched types is false, never an error; division by zero
is fixed as a runtime error. -/
def eval : Nat → Environment → Expr → Except RuntimeError (Value × Environment)
  | 0, _, e => .error ⟨exprToString e, 0, "evaluation fuel exhausted"⟩
  | _ + 1, env, .lit v => .ok (v, env)
  | fuel + 1, env, .grouping e => eval fuel env e
  | _ + 1, env, .variableRef name line =>
    match env.get name with
    | .ok v => .ok (v, env)
    | .error msg => .error ⟨exprToString (.variableRef name line), line, msg⟩
  | fuel + 1, env, .assign name line rhs =>
    match eval fuel env rhs with
    | .ok (v, env2) =>
      match env2.assign name v with
      | .ok env3 => .ok (v, env3)
      | .error msg => .error ⟨exprToString (.assign name line rhs), line, msg⟩
    | .error er => .error er
  | fuel + 1, env, .unary op line e =>
    match eval fuel env e with
    | .ok (v, env2) =>
      if op = .minus then
        match v with
        | .num q => .ok (.num (-q), env2)
        | _ => .error ⟨exprToString (.unary op line e), line, "Operand must be a number"⟩
      else if op = .bang then .ok (.bool (!is_truthy v), env2)
      else .error ⟨exprToString (.unary op line e), line, "Unknown unary operator"⟩
    | .error er => .error er
  | fuel + 1, env, .logical l op _line r =>
    match eval fuel env l with
    | .ok (lv, env2) =>
      if op = .kwOr then
        if is_truthy lv then .ok (lv, env2) else eval fuel env2 r
      else
        if is_truthy lv then eval fuel env2 r else .ok (lv, env2)
    | .error er => .error er
  | fuel + 1, env, .binary l op line r =>
    match eval fuel env l with
    | .ok (lv, env2) =>
      match eval fuel env2 r with
      | .ok (rv, env3) =>
        let rendered := exprToString (.binary l op line r)
        match op with
        | .plus =>
          match lv, rv with
          | .num a, .num b => .ok (.num (a + b), env3)
          | .str _, _ => .ok (.str (stringify lv ++ stringify rv), env3)
          | _, .str _ => .ok (.str (stringify lv ++ stringify rv), env3)
          | _, _ => .error ⟨rendered, line, "Operands must be numbers or strings"⟩
        | .minus =>
          match lv, rv with
          | .num a, .num b => .ok (.num (a - b), env3)
          | _, _ => .error ⟨rendered, line, "Operands must be numbers"⟩
        | .star =>
          match lv, rv with
          | .num a, .num b => .ok (.num (a * b), env3)
          | _, _ => .error ⟨rendered, line, "Operands must be numbers"⟩
        | .slash =>
          match lv, rv with
          | .num a, .num b =>
            if b = 0 then .error ⟨rendered, line, "Division by zero"⟩
            else .ok (.num (a / b), env3)
          | _, _ => .error ⟨rendered, line, "Operands must be numbers"⟩
        | .greater =>
          match lv, rv with
          | .num a, .num b => .ok (.bool (decide (b < a)), env3)
          | _, _ => .error ⟨rendered, line, "Operands must be numbers"⟩
        | .greaterEqual =>
          match lv, rv with
          | .num a, .num b => .ok (.bool (decide (b ≤ a)), env3)
          | _, _ => .error ⟨rendered, line, "Operands must be numbers"⟩
        | .less =>
          match lv, rv with
          | .num a, .num b => .ok (.bool (decide (a < b)), env3)
          | _, _ => .error ⟨rendered, line, "Operands must be numbers"⟩
        | .lessEqual =>
          match lv, rv with
          | .num a, .num b => .ok (.bool (decide (a ≤ b)), env3)
          | _, _ => .error ⟨rendered, line, "Operands must be numbers"⟩
        | .equalEqual => .ok (.bool (decide (lv = rv)), env3)
        | .bangEqual => .ok (.bool (!decide (lv = rv)), env3)
        | _ => .error ⟨rendered, line, "Unknown binary operator"⟩
      | .error er => .error er
    | .error er => .error er

/-- When a block's child scope is discarded, control returns to its
(possibly mutated) parent. -/
def parentOf (child fallback : Environment) : Environment :=
  match child with
  | .mk _ (some p) => p
  | .mk _ none => fallback

mutual

/-- Modelled from the spec (section 4.4; `interpreter` module is not in
src/): statement execution.  Returns the lines printed by the statement and
either the updated environment or the runtime error. -/
def exec : Nat → Environment → Stmt → List String × Except RuntimeError Environment
  | 0, _, _ => ([], .error ⟨"", 0, "evaluation fuel exhausted"⟩)
  | fuel + 1, env, .expression e =>
    match eval fuel env e with
    | .ok (_, env2) => ([], .ok env2)
    | .error er => ([], .error er)
  | fuel + 1, env, .print e =>
    match eval fuel env e with
    | .ok (v, env2) => ([stringify v], .ok env2)
    | .error er => ([], .error er)
  | fuel + 1, env, .varDecl name _line init =>
    match init with
    | some e =>
      match eval fuel env e with
      | .ok (v, env2) => ([], .ok (env2.define name v))
      | .error er => ([], .error er)
    | none => ([], .ok (env.define name .nil))
  | fuel + 1, env, .block stmts =>
    let child := Environment.new (some env)
    match execList fuel child stmts with
    | (out, .ok child2) => (out, .ok (parentOf child2 env))
    | (out, .error er) => (out, .error er)
  | fuel + 1, env, .ifS cond thenB elseB =>
    match eval fuel env cond with
    | .ok (v, env2) =>
      if is_truthy v then exec fuel env2 thenB
      else
        match elseB with
        | some s => exec fuel env2 s
        | none => ([], .ok env2)
    | .error er => ([], .error er)
  | fuel + 1, env, .whileS cond body =>
    match eval fuel env cond with
    | .ok (v, env2) =>
      if is_truthy v then
        match exec fuel env2 body with
        | (out, .ok env3) =>
          match exec fuel env3 (.whileS cond body) with
          | (out2, res) => (out ++ out2, res)
        | (out, .error er) => (out, .error er)
      else ([], .ok env2)
    | .error er => ([], .error er)

/-- Execute the statements of a block in order, stopping at the first
runtime error. -/
def execList : Nat → Environment → List Stmt → List String × Except RuntimeError Environment
  | 0, _, _ => ([], .error ⟨"", 0, "evaluation fuel exhausted"⟩)
  | _ + 1, env, [] => ([], .ok env)
  | fuel + 1, env, s :: rest =>
    match exec fuel env s with
    | (out, .ok env2) =>
      match execList fuel env2 rest with
      | (out2, res) => (out ++ out2, res)
    | (out, .error er) => (out, .error er)

end

/-- Modelled from the spec (sections 4.4 and 6; `interpreter` module is not
in src/): `interpret(statements, env)` executes each top-level statement in
order against the given environment, accumulating runtime errors across
statements rather than stopping at the first, and returns the printed
output, the ordered error sequence (empty on success, matching
`Result<(), Vec<RuntimeError>>`), and the final environment. -/
def interpretLoop : Nat → Environment → List Stmt → List String → List RuntimeError →
    List String × List RuntimeError × Environment
  | _, env, [], out, errs => (out, errs, env)
  | fuel, env, s :: rest, out, errs =>
    match exec fuel env s with
    | (out2, .ok env2) => interpretLoop fuel env2 rest (out ++ out2) errs
    | (out2, .error er) => interpretLoop fuel env rest (out ++ out2) (errs ++ [er])

/-- Modelled from the spec (sections 4.4 and 6): the interpreter entry
point. -/
def interpret (fuel : Nat) (stmts : List Stmt) (env : Environment) :
    List String × List RuntimeError × Environment :=
  interpretLoop fuel env stmts [] []

/-- LoxError, src/main.rs lines 18-20: the driver-internal failure value
carrying the process exit code. -/
structure LoxError where
  exit_code : Nat
deriving DecidableEq, Repr

/-- `report`, src/main.rs lines 144-146: the printed line
`[line N] Error <location>: <message>`.  Printing is modelled by returning
the line. -/
def report (line : Nat) (location : String) (message : String) : String :=
  "[line " ++ toString line ++ "] Error " ++ location ++ ": " ++ message

/-- `error`, src/main.rs lines 140-142: report with an empty location. -/
def error (line : Nat) (message : String) : String := report line "" message

/-- The message body built by `run` for a scan error, src/main.rs lines
123-134. -/
def scanErrorBody (e : ScanError) : String :=
  match e.cause with
  | .badChar c =>
    "Unexpected character " ++ String.singleton c ++ " at " ++ toString e.position
  | .unterminatedString s =>
    "Unterminated string " ++ s ++ " at " ++ toString e.position
  | .numberParseError s cause =>
    "Could not parse " ++ s ++ " as a number at " ++ toString e.position ++
      " (" ++ cause ++ ")"

/-- The diagnostic `run` prints for a scan error, src/main.rs lines 118-134. -/
def reportScanError (e : ScanError) : String := error e.line (scanErrorBody e)

/-- Render the kind of a token, for the debug rendering interpolated by
`run` into parse-error messages. -/
def kindName : TokenType → String
  | .leftParen => "LeftParen"
  | .rightParen => "RightParen"
  | .leftBrace => "LeftBrace"
  | .rightBrace => "RightBrace"
  | .comma => "Comma"
  | .dot => "Dot"
  | .minus => "Minus"
  | .plus => "Plus"
  | .semicolon => "Semicolon"
  | .slash => "Slash"
  | .star => "Star"
  | .bang => "Bang"
  | .bangEqual => "BangEqual"
  | .equal => "Equal"
  | .equalEqual => "EqualEqual"
  | .greater => "Greater"
  | .greaterEqual => "GreaterEqual"
  | .less => "Less"
  | .lessEqual => "LessEqual"
  | .identifier => "Identifier"
  | .stringTok => "String"
  | .numberTok => "Number"
  | .kwAnd => "And"
  | .kwClass => "Class"
  | .kwElse => "Else"
  | .kwFalse => "False"
  | .kwFun => "Fun"
  | .kwFor => "For"
  | .kwIf => "If"
  | .kwNil => "Nil"
  | .kwOr => "Or"
  | .kwPrint => "Print"
  | .kwReturn => "Return"
  | .kwSuper => "Super"
  | .kwThis => "This"
  | .kwTrue => "True"
  | .kwVar => "Var"
  | .kwWhile => "While"
  | .eofTok => "Eof"

/-- Modelled from the spec (`token` module is not in src/): the debug
rendering of a token, used by `run` in the parse-error message
`parser error on <token>: <message>` (src/main.rs lines 107-111). -/
def reprToken (t : Token) : String :=
  "Token(kind: " ++ kindName t.kind ++ ", lexeme: " ++ t.lexeme ++
    ", line: " ++ toString t.line ++ ", position: " ++ toString t.position ++ ")"

/-- The line tag `run` uses for a parse error, src/main.rs lines 106-112:
the offending token's line when there is one, 0 otherwise. -/
def parseErrorLine (e : ParseError) : Nat :=
  match e.token with
  | some t => t.line
  | none => 0

/-- The message body `run` builds for a parse error, src/main.rs lines
107-111. -/
def parseErrorBody (e : ParseError) : String :=
  "parser error on " ++
    (match e.token with
     | some t => reprToken t
     | none => "None") ++ ": " ++ e.message

/-- The diagnostic `run` prints for a parse error, src/main.rs lines
104-113. -/
def reportParseError (e : ParseError) : String :=
  error (parseErrorLine e) (parseErrorBody e)

/-- The diagnostic `run` prints for a runtime error, src/main.rs line 99:
`<message> [line N]: <expr>`. -/
def reportRuntimeError (e : RuntimeError) : String :=
  e.message ++ " [line " ++ toString e.line ++ "]: " ++ e.expr

/-- The observable behaviour of one `run` call, src/main.rs lines 83-138:
the driver's own printed diagnostics, the program's print output (side
effects of `interpret`), the returned `Result<(), LoxError>`, and the final
state of the shared environment cell. -/
structure RunResult where
  driverOutput : List String
  programOutput : List String
  result : Except LoxError Unit
  env : Environment

/-- `run`, src/main.rs lines 83-138: scan, then parse, then interpret, each
stage only on the success of the previous one; report the failing stage's
errors and return LoxError with exit code 65 (scan/parse) or 70 (runtime);
return Ok after a silent full success. -/
def run (fuel : Nat) (source : String) (env : Environment) : RunResult :=
  match scan_tokens source with
  | .ok tokens =>
    match parse fuel tokens with
    | .ok stmts =>
      match interpret fuel stmts env with
      | (out, errs, env2) =>
        if errs = [] then ⟨[], out, .ok (), env2⟩
        else ⟨errs.map reportRuntimeError, out, .error ⟨70⟩, env2⟩
    | .error perrs => ⟨perrs.map reportParseError, [], .error ⟨65⟩, env⟩
  | .error e => ⟨[reportScanError e], [], .error ⟨65⟩, env⟩

/-- The three pipeline stages `run` can invoke. -/
inductive Stage where
  | scanStage | parseStage | interpretStage
deriving DecidableEq, Repr

/-- The stages `run` actually invokes on a source text, mirroring the match
structure of src/main.rs lines 83-138: parse only after a successful scan,
interpret only after a successful parse. -/
def runStages (fuel : Nat) (source : String) : List Stage :=
  match scan_tokens source with
  | .ok tokens =>
    match parse fuel tokens with
    | .ok _ => [.scanStage, .parseStage, .interpretStage]
    | .error _ => [.scanStage, .parseStage]
  | .error _ => [.scanStage]

/-- A process-level outcome: a normal exit with a status, or a panic (which
is not a status-carrying exit). -/
inductive MainOutcome where
  | exited (code : Nat)
  | panicked (msg : String)
deriving DecidableEq, Repr

/-- The observable behaviour of `run_file`: its outcome, whether the core
pipeline (`run`) was entered, and the run's result when it was. -/
structure FileRunResult where
  outcome : MainOutcome
  invokedRun : Bool
  runResult : Option RunResult

/-- `run_file`, src/main.rs lines 38-56: panic when the file cannot be
opened or read (the pipeline is never entered); otherwise construct the one
top-level environment, run the source, and exit with the LoxError's code on
failure.  A normal return flows back to `main`, which then finishes, so the
process exit status is 0; that is modelled as `.exited 0`.  File-system
effects are modelled by passing the open and read results explicitly; the
source panic texts are "couldn\x27t open/read <path>: <why>". -/
def run_file (fuel : Nat) (path_str : String) (openResult : Except String Unit)
    (readResult : Except String String) : FileRunResult :=
  match openResult with
  | .error why => ⟨.panicked ("could not open " ++ path_str ++ ": " ++ why), false, none⟩
  | .ok () =>
    match readResult with
    | .error why => ⟨.panicked ("could not read " ++ path_str ++ ": " ++ why), false, none⟩
    | .ok s =>
      let r := run fuel s (Environment.new none)
      match r.result with
      | .ok () => ⟨.exited 0, true, some r⟩
      | .error e => ⟨.exited e.exit_code, true, some r⟩

/-- One result of `stdin.read_line` in the prompt loop, src/main.rs lines
68-79: end-of-input (`Ok(0)`), a read line, or a read failure. -/
inductive ReadResult where
  | eofInput
  | lineInput (s : String)
  | readFailure (msg : String)
deriving DecidableEq, Repr

/-- The observable behaviour of the prompt loop: driver diagnostics, program
output, the line number printed by each `[N] ` prompt, how many reads were
consumed before the loop ended, and the final environment. -/
structure PromptResult where
  driverOutput : List String
  programOutput : List String
  prompts : List Nat
  consumed : Nat
  env : Environment

/-- The loop of `run_prompt`, src/main.rs lines 61-80: prompt, read; break
on end-of-input; on a read line, run it against the shared environment and
increment the line counter whether or not `run` failed; on a read failure,
print `error: <msg>` and loop without incrementing.  The sequence of read
results stands in for stdin. -/
def runPromptLoop (fuel : Nat) : Nat → Environment → List ReadResult → PromptResult
  | _, env, [] => ⟨[], [], [], 0, env⟩
  | lineNo, env, .eofInput :: _ => ⟨[], [], [lineNo], 1, env⟩
  | lineNo, env, .lineInput s :: rest =>
    let r := run fuel s env
    let tail := runPromptLoop fuel (lineNo + 1) r.env rest
    ⟨r.driverOutput ++ tail.driverOutput, r.programOutput ++ tail.programOutput,
      lineNo :: tail.prompts, tail.consumed + 1, tail.env⟩
  | lineNo, env, .readFailure msg :: rest =>
    let tail := runPromptLoop fuel lineNo env rest
    ⟨("error: " ++ msg) :: tail.driverOutput, tail.programOutput,
      lineNo :: tail.prompts, tail.consumed + 1, tail.env⟩

/-- `run_prompt`, src/main.rs lines 58-81: construct the session's single
top-level environment, then enter the loop at line 1. -/
def run_prompt (fuel : Nat) (inputs : List ReadResult) : PromptResult :=
  runPromptLoop fuel 1 (Environment.new none) inputs

/-- `main`, src/main.rs lines 22-36: with more than 2 argv entries (more
than one command-line argument beyond the program name in argv[0]) print
usage and exit 64; with exactly 2 run the named file; otherwise run the
prompt, whose normal return ends the process with status 0. -/
def mainModel (fuel : Nat) (argv : List String) (openResult : Except String Unit)
    (readResult : Except String String) (inputs : List ReadResult) : MainOutcome :=
  if argv.length > 2 then .exited 64
  else if argv.length = 2 then
    (run_file fuel (argv.getD 1 "") openResult readResult).outcome
  else
    let _ := run_prompt fuel inputs
    .exited 0

/-- The scan stage's error sequence as surfaced to the driver: empty on
success, a single error on failure. -/
def scanErrorSeq (s : String) : List ScanError :=
  match scan_tokens s with
  | .ok _ => []
  | .error e => [e]

/-- Observer: the parse stage's error sequence, when the pipeline reaches
parse and parse fails. -/
def pipelineParseErrors (fuel : Nat) (s : String) : Option (List ParseError) :=
  match scan_tokens s with
  | .ok ts =>
    match parse fuel ts with
    | .error es => some es
    | .ok _ => none
  | .error _ => none

/-- Observer: the parsed statements, when scan and parse both succeed. -/
def pipelineStmts (fuel : Nat) (s : String) : Option (List Stmt) :=
  match scan_tokens s with
  | .ok ts =>
    match parse fuel ts with
    | .ok st => some st
    | .error _ => none
  | .error _ => none

/-- Observer: the interpreter's (output, errors, final environment) triple,
when scan and parse both succeed. -/
def pipelineInterp (fuel : Nat) (s : String) (env : Environment) :
    Option (List String × List RuntimeError × Environment) :=
  (pipelineStmts fuel s).map (fun st => interpret fuel st env)

/-- Whether a read result is end-of-input. -/
def isEofRead : ReadResult → Bool
  | .eofInput => true
  | _ => false

/-- Claim C6: lexical failure is surfaced as an ordered sequence that is always
length-one-or-empty; a ScanError's cause is one of exactly the three
variants BadChar(char), UnterminatedString(partial-text),
NumberParseError(text, cause); and together with the carried line and
position this suffices for the diagnostic, which never re-inspects the
source: two different sources producing the same ScanError get the
identical driver diagnostic. -/
theorem scan_error_surface :
    (∀ s : String, (scanErrorSeq s).length ≤ 1)
    ∧ (∀ c : ScanErrorType,
        (∃ ch, c = .badChar ch) ∨ (∃ t, c = .unterminatedString t) ∨
          (∃ t cause, c = .numberParseError t cause))
    ∧ (∀ fuel s1 s2 env e, scan_tokens s1 = .error e → scan_tokens s2 = .error e →
        (run fuel s1 env).driverOutput = (run fuel s2 env).driverOutput) := by
  refine ⟨?_, ?_, ?_⟩
  · intro s
    unfold scanErrorSeq
    cases scan_tokens s <;> simp
  · intro c
    cases c with
    | badChar ch => exact .inl ⟨ch, rfl⟩
    | unterminatedString t => exact .inr (.inl ⟨t, rfl⟩)
    | numberParseError t cause => exact .inr (.inr ⟨t, cause, rfl⟩)
  · intro fuel s1 s2 env e h1 h2
    simp [run, h1, h2]

/-- Witness for C6: the sources "@" and "@x" yield the same ScanError and
hence the same driver diagnostic. -/
theorem scan_error_surface_witness :
    scan_tokens "@" = .error ⟨.badChar '@', 1, 0⟩
    ∧ scan_tokens "@x" = .error ⟨.badChar '@', 1, 0⟩
    ∧ (run 9 "@" (Environment.new none)).driverOutput =
        (run 9 "@x" (Environment.new none)).driverOutput :=
  ⟨rfl, rfl,
    scan_error_surface.2.2 9 "@" "@x" (Environment.new none) ⟨.badChar '@', 1, 0⟩ rfl rfl⟩

/-- Claim C7: a runtime value used as a condition is falsey exactly when it is
nil or boolean false; every number (including 0) and every string
(including "") is truthy; the evaluator branches conditionals and loops on
exactly this rule, so `if (0) print 1; else print 2;` prints 1. -/
theorem truthiness_rule :
    (∀ v : Value, is_truthy v = false ↔ (v = .nil ∨ v = .bool false))
    ∧ (∀ q : Rat, is_truthy (.num q) = true)
    ∧ (∀ s : String, is_truthy (.str s) = true)
    ∧ (∀ fuel env c tB eB, exec (fuel + 1) env (.ifS c tB eB) =
        match eval fuel env c with
        | .ok (v, env2) =>
          if is_truthy v then exec fuel env2 tB
          else
            match eB with
            | some s => exec fuel env2 s
            | none => ([], .ok env2)
        | .error er => ([], .error er))
    ∧ (∀ fuel env c b, exec (fuel + 1) env (.whileS c b) =
        match eval fuel env c with
        | .ok (v, env2) =>
          if is_truthy v then
            match exec fuel env2 b with
            | (out, .ok env3) =>
              match exec fuel env3 (.whileS c b) with
              | (out2, res) => (out ++ out2, res)
            | (out, .error er) => (out, .error er)
          else ([], .ok env2)
        | .error er => ([], .error er))
    ∧ (run 99 "if (0) print 1; else print 2;" (Environment.new none)).programOutput = ["1"]
    ∧ (run 99 "if (\"\") print 1; else print 2;" (Environment.new none)).programOutput = ["1"]
    ∧ (run 99 "if (nil) print 1; else print 2;" (Environment.new none)).programOutput = ["2"]
    ∧ (run 99 "if (false) print 1; else print 2;" (Environment.new none)).programOutput = ["2"]
    ∧ (run 99 "while (nil) print 1;" (Environment.new none)).programOutput = [] := by
  refine ⟨?_, fun q => rfl, fun s => rfl, fun fuel env c tB eB => rfl,
    fun fuel env c b => rfl, by decide, by decide, by decide, by decide, by decide⟩
  intro v
  cases v with
  | num q => simp [is_truthy]
  | str s => simp [is_truthy]
  | bool b => cases b <;> simp [is_truthy]
  | nil => simp [is_truthy]

/-- Claim C8: the prompt loop never stops because a line produced errors — the
number of reads it consumes is the count of reads strictly before the first
end-of-input (plus that end-of-input itself), independent of every run
outcome; each consumed read was prompted; after a read line the loop
continues with the line counter incremented whether or not `run` failed;
and it breaks immediately at end-of-input.  Concretely, a session whose
first line is a scan error still runs the second line. -/
theorem prompt_loop_resilience :
    (∀ fuel lineNo env inputs,
        (runPromptLoop fuel lineNo env inputs).consumed =
          (inputs.takeWhile (fun r => !isEofRead r)).length +
            (if (inputs.takeWhile (fun r => !isEofRead r)).length < inputs.length
             then 1 else 0))
    ∧ (∀ fuel lineNo env inputs,
        (runPromptLoop fuel lineNo env inputs).prompts.length =
          (runPromptLoop fuel lineNo env inputs).consumed)
    ∧ (∀ fuel lineNo env s rest,
        (runPromptLoop fuel lineNo env (.lineInput s :: rest)).prompts =
          lineNo :: (runPromptLoop fuel (lineNo + 1) (run fuel s env).env rest).prompts)
    ∧ (∀ fuel lineNo env rest,
        (runPromptLoop fuel lineNo env (.eofInput :: rest)).consumed = 1)
    ∧ (run_prompt 99 [.lineInput "@", .lineInput "print 1;", .eofInput]).prompts = [1, 2, 3]
    ∧ (run_prompt 99 [.lineInput "@", .lineInput "print 1;", .eofInput]).programOutput = ["1"] := by
  refine ⟨?_, ?_, fun fuel lineNo env s rest => rfl, fun fuel lineNo env rest => rfl,
    by decide, by decide⟩
  · intro fuel lineNo env inputs
    induction inputs generalizing lineNo env with
    | nil => simp [runPromptLoop]
    | cons r rest ih =>
      cases r with
      | eofInput => simp [runPromptLoop, isEofRead, List.takeWhile]
      | lineInput s =>
        have htw : List.takeWhile (fun r => !isEofRead r) (ReadResult.lineInput s :: rest) =
            ReadResult.lineInput s :: List.takeWhile (fun r => !isEofRead r) rest := by
          simp [List.takeWhile, isEofRead]
        simp only [runPromptLoop, htw, List.length_cons]
        rw [ih]
        split <;> split <;> omega
      | readFailure msg =>
        have htw : List.takeWhile (fun r => !isEofRead r) (ReadResult.readFailure msg :: rest) =
            ReadResult.readFailure msg :: List.takeWhile (fun r => !isEofRead r) rest := by
          simp [List.takeWhile, isEofRead]
        simp only [runPromptLoop, htw, List.length_cons]
        rw [ih]
        split <;> split <;> omega
  · intro fuel lineNo env inputs
    induction inputs generalizing lineNo env with
    | nil => simp [runPromptLoop]
    | cons r rest ih =>
      cases r with
      | eofInput => simp [runPromptLoop]
      | lineInput s => simp [runPromptLoop, ih]
      | readFailure msg => simp [runPromptLoop, ih]

/-- Claim C9: when the file cannot be opened or cannot be read, `run_file` panics
with a diagnostic message, never enters the core pipeline, and its outcome
is not an `exited` status (in particular not 64, 65 or 70). -/
theorem run_file_io_panics :
    (∀ fuel path why readResult,
        run_file fuel path (.error why) readResult =
          ⟨.panicked ("could not open " ++ path ++ ": " ++ why), false, none⟩)
    ∧ (∀ fuel path why,
        run_file fuel path (.ok ()) (.error why) =
          ⟨.panicked ("could not read " ++ path ++ ": " ++ why), false, none⟩)
    ∧ (∀ fuel path why readResult code,
        (run_file fuel path (.error why) readResult).outcome ≠ .exited code)
    ∧ (∀ fuel path why code,
        (run_file fuel path (.ok ()) (.error why)).outcome ≠ .exited code) := by
  refine ⟨fun _ _ _ _ => rfl, fun _ _ _ => rfl, ?_, ?_⟩ <;> intros <;> simp [run_file]

/-- Helper: on a scan error, `run` prints its single diagnostic and returns
exit code 65. -/
theorem run_scan_err {fuel : Nat} {s : String} {env : Environment} {e : ScanError}
    (h : scan_tokens s = .error e) :
    run fuel s env = ⟨[reportScanError e], [], .error ⟨65⟩, env⟩ := by
  simp [run, h]

/-- Helper: on parse errors, `run` prints one diagnostic per error and
returns exit code 65. -/
theorem run_parse_err {fuel : Nat} {s : String} {env : Environment} {ts : List Token}
    {perrs : List ParseError} (hs : scan_tokens s = .ok ts)
    (hp : parse fuel ts = .error perrs) :
    run fuel s env = ⟨perrs.map reportParseError, [], .error ⟨65⟩, env⟩ := by
  simp [run, hs, hp]

/-- Helper: after a successful scan and parse, `run`'s behaviour is
determined by the interpreter's error list. -/
theorem run_interp_result {fuel : Nat} {s : String} {env : Environment} {ts : List Token}
    {stmts : List Stmt} {out : List String} {errs : List RuntimeError} {env2 : Environment}
    (hs : scan_tokens s = .ok ts) (hp : parse fuel ts = .ok stmts)
    (hi : interpret fuel stmts env = (out, errs, env2)) :
    run fuel s env =
      if errs = [] then ⟨[], out, .ok (), env2⟩
      else ⟨errs.map reportRuntimeError, out, .error ⟨70⟩, env2⟩ := by
  simp [run, hs, hp, hi]

/-- Helper: inversion of the parse-error observer. -/
theorem pipelineParseErrors_inv {fuel : Nat} {s : String} {perrs : List ParseError}
    (h : pipelineParseErrors fuel s = some perrs) :
    ∃ ts, scan_tokens s = .ok ts ∧ parse fuel ts = .error perrs := by
  unfold pipelineParseErrors at h
  split at h
  · split at h
    · injection h with h
      subst h
      exact ⟨_, by assumption, by assumption⟩
    · cases h
  · cases h

/-- Helper: inversion of the parsed-statements observer. -/
theorem pipelineStmts_inv {fuel : Nat} {s : String} {stmts : List Stmt}
    (h : pipelineStmts fuel s = some stmts) :
    ∃ ts, scan_tokens s = .ok ts ∧ parse fuel ts = .ok stmts := by
  unfold pipelineStmts at h
  split at h
  · split at h
    · injection h with h
      subst h
      exact ⟨_, by assumption, by assumption⟩
    · cases h
  · cases h

/-- Helper: inversion of the interpreter observer. -/
theorem pipelineInterp_inv {fuel : Nat} {s : String} {env : Environment}
    {trip : List String × List RuntimeError × Environment}
    (h : pipelineInterp fuel s env = some trip) :
    ∃ stmts, pipelineStmts fuel s = some stmts ∧ interpret fuel stmts env = trip := by
  unfold pipelineInterp at h
  cases hst : pipelineStmts fuel s with
  | none => rw [hst] at h; cases h
  | some stmts =>
    rw [hst] at h
    simp only [Option.map_some', Option.some.injEq] at h
    exact ⟨stmts, rfl, h⟩

/-- Helper: indexing a mapped list at a valid index. -/
theorem mapGetAux {α β : Type} (f : α → β) :
    ∀ (l : List α) (i : Nat) (h : i < l.length),
      (l.map f).get? i = some (f (l.get ⟨i, h⟩))
  | _ :: _, 0, _ => rfl
  | _ :: l, i + 1, h => mapGetAux f l i (by simpa using h)

/-- Claim C1: with more than one command-line argument the driver exits 64;
a scan or parse failure of the file's source yields exit status 65; runtime
errors yield 70; and a fully successful run yields 0. -/
theorem exit_status_mapping :
    (∀ fuel argv openResult readResult inputs, 2 < argv.length →
        mainModel fuel argv openResult readResult inputs = .exited 64)
    ∧ (∀ fuel path s e, scan_tokens s = .error e →
        (run_file fuel path (.ok ()) (.ok s)).outcome = .exited 65)
    ∧ (∀ fuel path s perrs, pipelineParseErrors fuel s = some perrs →
        (run_file fuel path (.ok ()) (.ok s)).outcome = .exited 65)
    ∧ (∀ fuel path s out errs env2,
        pipelineInterp fuel s (Environment.new none) = some (out, errs, env2) → errs ≠ [] →
        (run_file fuel path (.ok ()) (.ok s)).outcome = .exited 70)
    ∧ (∀ fuel path s out env2,
        pipelineInterp fuel s (Environment.new none) = some (out, [], env2) →
        (run_file fuel path (.ok ()) (.ok s)).outcome = .exited 0) := by
  refine ⟨?_, ?_, ?_, ?_, ?_⟩
  · intro fuel argv o r i h
    simp [mainModel, h]
  · intro fuel path s e h
    simp [run_file, run_scan_err h]
  · intro fuel path s perrs h
    obtain ⟨ts, hs, hp⟩ := pipelineParseErrors_inv h
    simp [run_file, run_parse_err hs hp]
  · intro fuel path s out errs env2 h hne
    obtain ⟨stmts, hst, hi⟩ := pipelineInterp_inv h
    obtain ⟨ts, hs, hp⟩ := pipelineStmts_inv hst
    simp [run_file, run_interp_result hs hp hi, hne]
  · intro fuel path s out env2 h
    obtain ⟨stmts, hst, hi⟩ := pipelineInterp_inv h
    obtain ⟨ts, hs, hp⟩ := pipelineStmts_inv hst
    simp [run_file, run_interp_result hs hp hi]

/-- Witness for C1: concrete runs hitting each exit status. -/
theorem exit_status_mapping_witness :
    mainModel 9 ["lox", "a.lox", "extra"] (.ok ()) (.ok "") [] = .exited 64
    ∧ (run_file 9 "a.lox" (.ok ()) (.ok "@")).outcome = .exited 65
    ∧ (run_file 99 "a.lox" (.ok ()) (.ok "var;")).outcome = .exited 65
    ∧ (run_file 99 "a.lox" (.ok ()) (.ok "print x;")).outcome = .exited 70
    ∧ (run_file 99 "a.lox" (.ok ()) (.ok "print 1;")).outcome = .exited 0 :=
  ⟨exit_status_mapping.1 9 ["lox", "a.lox", "extra"] (.ok ()) (.ok "") [] (by decide),
    exit_status_mapping.2.1 9 "a.lox" "@" ⟨.badChar '@', 1, 0⟩ rfl,
    exit_status_mapping.2.2.1 99 "a.lox" "var;" ((pipelineParseErrors 99 "var;").getD []) rfl,
    exit_status_mapping.2.2.2.1 99 "a.lox" "print x;" [] [⟨"x", 1, "Undefined variable x"⟩]
      (Environment.new none) rfl (by decide),
    exit_status_mapping.2.2.2.2 99 "a.lox" "print 1;" ["1"] (Environment.new none) rfl⟩

/-- Claim C3: the pipeline is staged strictly — parse runs only after a
successful scan, interpret only after a successful parse — and `run`
returns a single outcome: Ok with no reported errors on full success,
otherwise a failure after reporting exactly the failing stage's errors. -/
theorem run_staged_pipeline :
    (∀ fuel s env e, scan_tokens s = .error e →
        runStages fuel s = [.scanStage] ∧
        run fuel s env = ⟨[reportScanError e], [], .error ⟨65⟩, env⟩)
    ∧ (∀ fuel s env ts perrs, scan_tokens s = .ok ts → parse fuel ts = .error perrs →
        runStages fuel s = [.scanStage, .parseStage] ∧
        run fuel s env = ⟨perrs.map reportParseError, [], .error ⟨65⟩, env⟩)
    ∧ (∀ fuel s ts stmts, scan_tokens s = .ok ts → parse fuel ts = .ok stmts →
        runStages fuel s = [.scanStage, .parseStage, .interpretStage])
    ∧ (∀ fuel s env ts stmts out env2, scan_tokens s = .ok ts → parse fuel ts = .ok stmts →
        interpret fuel stmts env = (out, [], env2) →
        run fuel s env = ⟨[], out, .ok (), env2⟩)
    ∧ (∀ fuel s env ts stmts out errs env2, scan_tokens s = .ok ts → parse fuel ts = .ok stmts →
        interpret fuel stmts env = (out, errs, env2) → errs ≠ [] →
        run fuel s env = ⟨errs.map reportRuntimeError, out, .error ⟨70⟩, env2⟩) := by
  refine ⟨?_, ?_, ?_, ?_, ?_⟩
  · intro fuel s env e h
    exact ⟨by simp [runStages, h], run_scan_err h⟩
  · intro fuel s env ts perrs hs hp
    exact ⟨by simp [runStages, hs, hp], run_parse_err hs hp⟩
  · intro fuel s ts stmts hs hp
    simp [runStages, hs, hp]
  · intro fuel s env ts stmts out env2 hs hp hi
    simp [run_interp_result hs hp hi]
  · intro fuel s env ts stmts out errs env2 hs hp hi hne
    simp [run_interp_result hs hp hi, hne]

/-- Witness for C3: a concrete run for each staging shape. -/
theorem run_staged_pipeline_witness :
    runStages 9 "@" = [.scanStage]
    ∧ runStages 99 "var;" = [.scanStage, .parseStage]
    ∧ runStages 99 "print 1;" = [.scanStage, .parseStage, .interpretStage]
    ∧ (run 99 "print 1;" (Environment.new none)).result = .ok ()
    ∧ (run 99 "print x;" (Environment.new none)).result = .error ⟨70⟩ := by
  have h1 := run_staged_pipeline.1 9 "@" (Environment.new none) ⟨.badChar '@', 1, 0⟩ rfl
  have h2 := run_staged_pipeline.2.1 99 "var;" (Environment.new none)
      ((scan_tokens "var;").toOption.getD []) ((pipelineParseErrors 99 "var;").getD []) rfl rfl
  have h3 := run_staged_pipeline.2.2.1 99 "print 1;" ((scan_tokens "print 1;").toOption.getD [])
      ((pipelineStmts 99 "print 1;").getD []) rfl rfl
  have h4 := run_staged_pipeline.2.2.2.1 99 "print 1;" (Environment.new none)
      ((scan_tokens "print 1;").toOption.getD []) ((pipelineStmts 99 "print 1;").getD [])
      ["1"] (Environment.new none) rfl rfl rfl
  have h5 := run_staged_pipeline.2.2.2.2 99 "print x;" (Environment.new none)
      ((scan_tokens "print x;").toOption.getD []) ((pipelineStmts 99 "print x;").getD [])
      [] [⟨"x", 1, "Undefined variable x"⟩] (Environment.new none) rfl rfl rfl (by decide)
  exact ⟨h1.1, h2.1, h3, by rw [h4], by rw [h5]⟩

/-- Claim C4: scan and parse errors are printed through the
`[line N] Error <location>: <message>` template (with an empty location),
and runtime errors as `<message> [line N]: <expr>` from the error's own
line, message and rendered expression. -/
theorem driver_error_formats :
    (∀ e : ScanError, reportScanError e =
        "[line " ++ toString e.line ++ "] Error " ++ "" ++ ": " ++ scanErrorBody e)
    ∧ (∀ e : ParseError, reportParseError e =
        "[line " ++ toString (parseErrorLine e) ++ "] Error " ++ "" ++ ": " ++ parseErrorBody e)
    ∧ (∀ e : RuntimeError, reportRuntimeError e =
        e.message ++ " [line " ++ toString e.line ++ "]: " ++ e.expr)
    ∧ (∀ fuel s env e, scan_tokens s = .error e →
        (run fuel s env).driverOutput = [reportScanError e])
    ∧ (∀ fuel s env perrs, pipelineParseErrors fuel s = some perrs →
        (run fuel s env).driverOutput = perrs.map reportParseError)
    ∧ (∀ fuel s env out errs env2, pipelineInterp fuel s env = some (out, errs, env2) →
        errs ≠ [] → (run fuel s env).driverOutput = errs.map reportRuntimeError) := by
  refine ⟨fun e => rfl, fun e => rfl, fun e => rfl, ?_, ?_, ?_⟩
  · intro fuel s env e h
    rw [run_scan_err h]
  · intro fuel s env perrs h
    obtain ⟨ts, hs, hp⟩ := pipelineParseErrors_inv h
    rw [run_parse_err hs hp]
  · intro fuel s env out errs env2 h hne
    obtain ⟨stmts, hst, hi⟩ := pipelineInterp_inv h
    obtain ⟨ts, hs, hp⟩ := pipelineStmts_inv hst
    rw [run_interp_result hs hp hi, if_neg hne]

/-- Witness for C4: the three diagnostic shapes on concrete failing runs. -/
theorem driver_error_formats_witness :
    (run 9 "@" (Environment.new none)).driverOutput =
        [reportScanError ⟨.badChar '@', 1, 0⟩]
    ∧ (run 99 "var;" (Environment.new none)).driverOutput =
        ((pipelineParseErrors 99 "var;").getD []).map reportParseError
    ∧ (run 99 "print x;" (Environment.new none)).driverOutput =
        [⟨"x", 1, "Undefined variable x"⟩].map reportRuntimeError :=
  ⟨driver_error_formats.2.2.2.1 9 "@" (Environment.new none) ⟨.badChar '@', 1, 0⟩ rfl,
    driver_error_formats.2.2.2.2.1 99 "var;" (Environment.new none)
      ((pipelineParseErrors 99 "var;").getD []) rfl,
    driver_error_formats.2.2.2.2.2 99 "print x;" (Environment.new none) []
      [⟨"x", 1, "Undefined variable x"⟩] (Environment.new none) rfl (by decide)⟩

/-- The literal reading of claim C5's parse-error clause: every reported
parse error carries an offending token and is tagged with that token's
line. -/
def parseErrorsTokenLineClaim : Prop :=
  ∀ fuel s env perrs, pipelineParseErrors fuel s = some perrs →
    ∀ i (h : i < perrs.length), ∃ t : Token,
      (perrs.get ⟨i, h⟩).token = some t ∧
      (run fuel s env).driverOutput.get? i =
        some (error t.line (parseErrorBody (perrs.get ⟨i, h⟩)))

/-- Counterexample to C5 as stated: on the source "print 1" the parser
fails at end-of-input, so the single ParseError carries no offending token
and the driver tags the diagnostic with line 0, not with any token's
line. -/
theorem parse_error_token_line_cex : ¬ parseErrorsTokenLineClaim := by
  intro hcl
  obtain ⟨t, ht, -⟩ := hcl 99 "print 1" (Environment.new none)
      [⟨none, "Expected ; after value"⟩] (by decide) 0 (by decide)
  simp at ht

/-- Claim C5 (amended): when parse or interpret returns an error sequence,
`run` reports every error individually and in order — each parse error
tagged with its offending token's line when it carries one and with 0 when
it carries none (as at end-of-input), each runtime error tagged with the
error's own line — before returning the single aggregate failure (65 or
70). -/
theorem run_reports_each_error_individually :
    (∀ fuel s env perrs, pipelineParseErrors fuel s = some perrs →
        (run fuel s env).driverOutput = perrs.map reportParseError ∧
        (run fuel s env).result = .error ⟨65⟩ ∧
        ∀ i (h : i < perrs.length),
          (run fuel s env).driverOutput.get? i =
            some (error (parseErrorLine (perrs.get ⟨i, h⟩))
              (parseErrorBody (perrs.get ⟨i, h⟩))))
    ∧ (∀ fuel s env out errs env2,
        pipelineInterp fuel s env = some (out, errs, env2) → errs ≠ [] →
        (run fuel s env).driverOutput = errs.map reportRuntimeError ∧
        (run fuel s env).result = .error ⟨70⟩ ∧
        ∀ i (h : i < errs.length),
          (run fuel s env).driverOutput.get? i =
            some (reportRuntimeError (errs.get ⟨i, h⟩))) := by
  constructor
  · intro fuel s env perrs h
    obtain ⟨ts, hs, hp⟩ := pipelineParseErrors_inv h
    rw [run_parse_err hs hp]
    exact ⟨rfl, rfl, fun i hil => mapGetAux reportParseError perrs i hil⟩
  · intro fuel s env out errs env2 h hne
    obtain ⟨stmts, hst, hi⟩ := pipelineInterp_inv h
    obtain ⟨ts, hs, hp⟩ := pipelineStmts_inv hst
    rw [run_interp_result hs hp hi, if_neg hne]
    exact ⟨rfl, rfl, fun i hil => mapGetAux reportRuntimeError errs i hil⟩

/-- Witness for amended C5: a source with two independent parse errors gets
two individual reports before the single 65 failure, and a runtime error
gets its report before the single 70 failure. -/
theorem run_reports_each_error_individually_witness :
    (run 99 "var; var;" (Environment.new none)).driverOutput.length = 2
    ∧ (run 99 "var; var;" (Environment.new none)).result = .error ⟨65⟩
    ∧ (run 99 "print x;" (Environment.new none)).driverOutput.length = 1
    ∧ (run 99 "print x;" (Environment.new none)).result = .error ⟨70⟩ := by
  have h1 := run_reports_each_error_individually.1 99 "var; var;" (Environment.new none)
      ((pipelineParseErrors 99 "var; var;").getD []) rfl
  have h2 := run_reports_each_error_individually.2 99 "print x;" (Environment.new none)
      [] [⟨"x", 1, "Undefined variable x"⟩] (Environment.new none) rfl (by decide)
  refine ⟨?_, h1.2.1, ?_, h2.2.1⟩
  · rw [h1.1]; decide
  · rw [h2.1]; decide

/-- Claim C10: whenever scanning, parsing and interpretation all succeed,
`run` prints no diagnostic of its own — its driver-level output is empty,
its program output is exactly the interpreter's, and it returns Ok. -/
theorem run_silent_on_success :
    ∀ fuel s env out env2, pipelineInterp fuel s env = some (out, [], env2) →
      (run fuel s env).driverOutput = [] ∧ (run fuel s env).result = .ok () ∧
      (run fuel s env).programOutput = out ∧ (run fuel s env).env = env2 := by
  intro fuel s env out env2 h
  obtain ⟨stmts, hst, hi⟩ := pipelineInterp_inv h
  obtain ⟨ts, hs, hp⟩ := pipelineStmts_inv hst
  rw [run_interp_result hs hp hi]
  exact ⟨rfl, rfl, rfl, rfl⟩

/-- Witness for C10: a fully successful concrete run. -/
theorem run_silent_on_success_witness :
    (run 99 "print 1;" (Environment.new none)).driverOutput = []
    ∧ (run 99 "print 1;" (Environment.new none)).result = .ok ()
    ∧ (run 99 "print 1;" (Environment.new none)).programOutput = ["1"] := by
  have h := run_silent_on_success 99 "print 1;" (Environment.new none) ["1"]
      (Environment.new none) rfl
  exact ⟨h.1, h.2.1, h.2.2.1⟩

/-- Claim C2: the driver constructs exactly one top-level environment per
file run (`run` is invoked once, on `Environment::new(None)`), and one per
interactive session, threaded unchanged into every successive line (the
loop continues with the environment produced by the previous `run`), so a
variable defined by one input is observable by the next: the session
`var x = 1;` then `print x;` prints 1, and after the first line the shared
environment binds x to 1. -/
theorem toplevel_environment_per_session :
    (∀ fuel path s, (run_file fuel path (.ok ()) (.ok s)).runResult =
        some (run fuel s (Environment.new none)))
    ∧ (∀ fuel inputs, run_prompt fuel inputs =
        runPromptLoop fuel 1 (Environment.new none) inputs)
    ∧ (∀ fuel lineNo env s rest,
        (runPromptLoop fuel lineNo env (.lineInput s :: rest)).env =
          (runPromptLoop fuel (lineNo + 1) (run fuel s env).env rest).env)
    ∧ (∀ fuel lineNo env s rest,
        (runPromptLoop fuel lineNo env (.lineInput s :: rest)).programOutput =
          (run fuel s env).programOutput ++
            (runPromptLoop fuel (lineNo + 1) (run fuel s env).env rest).programOutput)
    ∧ (run_prompt 99 [.lineInput "var x = 1;", .lineInput "print x;", .eofInput]).programOutput
        = ["1"]
    ∧ (run_prompt 99 [.lineInput "var x = 1;", .lineInput "print x;", .eofInput]).driverOutput
        = []
    ∧ ((run 99 "var x = 1;" (Environment.new none)).env).get "x" = .ok (.num 1) := by
  refine ⟨?_, fun fuel inputs => rfl, fun fuel lineNo env s rest => rfl,
    fun fuel lineNo env s rest => rfl, by decide, by decide, by decide⟩
  intro fuel path s
  simp only [run_file]
  split <;> rfl

end Lox
